import Mathlib

/-!
Verification of the credential resolution and API-key validation logic of
the Anthropic provider (`core/framework/llm/anthropic.py`).

Python strings are modelled as `List Char`.  `str.strip()` is modelled by
`pyStrip`, which removes the ASCII whitespace characters from both ends.
Python truthiness of an optional string (`None` and the empty string are
falsy) is `pyTruthy`.  The pluggable credential store and the process
environment are modelled as explicit state records passed to the functions
that consult them.
-/

set_option maxHeartbeats 1000000

/-- Whitespace characters removed by Python `str.strip` (ASCII range). -/
def isPyWhitespace (c : Char) : Bool :=
  c == ' ' || c == '\t' || c == '\n' || c == '\r' || c == '\x0b' || c == '\x0c'

/-- The control characters the validator rejects: the Python membership
test `any(char in api_key for char in CTRL)` over newline, carriage
return, tab, vertical tab and form feed. -/
def isCtrlChar (c : Char) : Bool :=
  c == '\n' || c == '\r' || c == '\t' || c == '\x0b' || c == '\x0c'

/-- Whether the raw string contains any of the rejected control characters. -/
def hasCtrl (s : List Char) : Bool := s.any isCtrlChar

/-- Python `s.strip()`: drop whitespace from the front, then from the back. -/
def pyStrip (s : List Char) : List Char :=
  ((s.dropWhile isPyWhitespace).reverse.dropWhile isPyWhitespace).reverse

/-- The double-quote character. -/
def doubleQuote : Char := Char.ofNat 34

/-- The single-quote character. -/
def singleQuote : Char := Char.ofNat 39

/-- Python `l.startswith(p)` for list-modelled strings. -/
def listStartsWith (p l : List Char) : Bool := decide (l.take p.length = p)

/-- The literal key form the validator expects at the front of a key. -/
def skAnt : List Char := ['s', 'k', '-', 'a', 'n', 't', '-']

/-- The quoted-key test of the validator: the string both starts and ends
with a double quote, or both starts and ends with a single quote. -/
def quoteWrapped (l : List Char) : Bool :=
  (l.head? == some doubleQuote && l.getLast? == some doubleQuote) ||
  (l.head? == some singleQuote && l.getLast? == some singleQuote)

/-- The distinct failure reasons of `_validate_api_key` (each a distinct
`ValueError` message in the source). -/
inductive ValidationError where
  | EmptyOrWhitespace
  | ControlCharacters
  | QuotedKey
  | UnexpectedFormat
deriving DecidableEq

/-- `_validate_api_key`: validate and normalize an Anthropic API key.
The checks run in source order: empty-or-whitespace (on the raw string),
control characters (on the raw string, before stripping), quoted key (on
the stripped string), expected key form (on the stripped string); on
success the stripped string is returned. -/
def _validate_api_key (api_key : List Char) : Except ValidationError (List Char) :=
  if api_key = [] ∨ pyStrip api_key = [] then
    .error .EmptyOrWhitespace
  else if hasCtrl api_key then
    .error .ControlCharacters
  else if quoteWrapped (pyStrip api_key) then
    .error .QuotedKey
  else if listStartsWith skAnt (pyStrip api_key) = false then
    .error .UnexpectedFormat
  else
    .ok (pyStrip api_key)

/-- The fixed provider identifier used for the store lookup. -/
def anthropicId : List Char := ['a', 'n', 't', 'h', 'r', 'o', 'p', 'i', 'c']

/-- State of the pluggable credential store collaborator
(`aden_tools.credentials.CredentialStoreAdapter`): whether the import of
the collaborator succeeds, and the behaviour of `is_available` and `get`
on the default adapter. -/
structure CredentialStore where
  importable : Bool
  is_available : List Char → Bool
  get : List Char → Option (List Char)

/-- The relevant part of the process environment:
`os.environ.get` applied to the fixed name ANTHROPIC_API_KEY -/
structure Env where
  anthropic_api_key : Option (List Char)

/-- `_get_api_key_from_credential_store`: if the store collaborator
imports and reports the credential available under the fixed identifier,
return the store value as-is (it may be absent); on import failure or
unavailability, fall through to the environment variable. -/
def _get_api_key_from_credential_store (store : CredentialStore) (env : Env) :
    Option (List Char) :=
  if store.importable then
    if store.is_available anthropicId then store.get anthropicId
    else env.anthropic_api_key
  else env.anthropic_api_key

/-- Python truthiness of an optional string: `None` and the empty string
are falsy, every other string is truthy. -/
def pyTruthy : Option (List Char) → Bool
  | none => false
  | some s => decide (s ≠ [])

/-- The expression `api_key or _get_api_key_from_credential_store()` of the
constructor, instrumented: the first component is the resulting raw key,
the second records whether the store/environment lookup was evaluated
(Python `or` short-circuits, so the lookup runs exactly when the explicit
argument is falsy). -/
def resolveRaw (api_key : Option (List Char)) (store : CredentialStore) (env : Env) :
    Option (List Char) × Bool :=
  if pyTruthy api_key then (api_key, false)
  else (_get_api_key_from_credential_store store env, true)

/-- The distinct failure modes of `AnthropicProvider.__init__`:
the missing-credential error raised when no source yields a key, and the
errors propagated from the validator. -/
inductive InitError where
  | MissingCredential
  | KeyInvalid (e : ValidationError)
deriving DecidableEq

/-- The observable credential state of a constructed `AnthropicProvider`:
the stored (validated, normalized) key and the model name. -/
structure AnthropicProvider where
  api_key : List Char
  model : List Char
deriving DecidableEq

/-- `AnthropicProvider.__init__`: resolve the raw key from the explicit
argument, the credential store and the environment; raise
MissingCredential when the resolved value is falsy; otherwise validate,
normalize and store it. -/
def AnthropicProvider.init (api_key : Option (List Char)) (store : CredentialStore)
    (env : Env) (model : List Char) : Except InitError AnthropicProvider :=
  match (resolveRaw api_key store env).1 with
  | none => .error .MissingCredential
  | some s =>
    if s = [] then .error .MissingCredential
    else
      match _validate_api_key s with
      | .error e => .error (.KeyInvalid e)
      | .ok k => .ok ⟨k, model⟩

/-- A store whose collaborator fails to import, for concrete instances. -/
def unimportableStore : CredentialStore :=
  ⟨false, fun _ => false, fun _ => none⟩

/-- A store that imports, reports the credential available, but whose
`get` yields no value. -/
def availableEmptyStore : CredentialStore :=
  ⟨true, fun _ => true, fun _ => none⟩

/-! ### Helper lemmas about `pyStrip` -/

theorem mem_of_mem_dropWhile {p : Char → Bool} {x : Char} {l : List Char}
    (h : x ∈ l.dropWhile p) : x ∈ l :=
  (List.dropWhile_sublist p).subset h

theorem mem_of_mem_pyStrip {x : Char} {l : List Char} (h : x ∈ pyStrip l) : x ∈ l := by
  unfold pyStrip at h
  rw [List.mem_reverse] at h
  have h1 := mem_of_mem_dropWhile h
  rw [List.mem_reverse] at h1
  exact mem_of_mem_dropWhile h1

theorem hasCtrl_pyStrip {l : List Char} (h : hasCtrl l = false) :
    hasCtrl (pyStrip l) = false := by
  rw [hasCtrl, List.any_eq_false] at h ⊢
  intro x hx
  exact h x (mem_of_mem_pyStrip hx)

theorem dropWhile_dropWhile (p : Char → Bool) (l : List Char) :
    (l.dropWhile p).dropWhile p = l.dropWhile p := by
  induction l with
  | nil => rfl
  | cons a t ih =>
    by_cases h : p a
    · rw [List.dropWhile_cons_of_pos h, ih]
    · rw [List.dropWhile_cons_of_neg h, List.dropWhile_cons_of_neg h]

theorem head?_dropWhile_false {p : Char → Bool} {l : List Char} {c : Char}
    (h : (l.dropWhile p).head? = some c) : p c = false := by
  have := List.head?_dropWhile_not p l
  rw [h] at this
  exact this

theorem dropWhile_eq_self_of_head? {p : Char → Bool} {l : List Char}
    (h : ∀ c, l.head? = some c → p c = false) : l.dropWhile p = l := by
  cases l with
  | nil => rfl
  | cons a t =>
    have ha : p a = false := h a rfl
    simp [List.dropWhile_cons, ha]

theorem getLast?_dropWhile_of_ne_nil {p : Char → Bool} {l : List Char}
    (h : l.dropWhile p ≠ []) : (l.dropWhile p).getLast? = l.getLast? := by
  induction l with
  | nil => simp at h
  | cons a t ih =>
    by_cases ha : p a
    · rw [List.dropWhile_cons_of_pos ha] at h ⊢
      have ht : t ≠ [] := by
        intro he
        subst he
        simp at h
      rw [ih h]
      cases t with
      | nil => exact absurd rfl ht
      | cons b u => simp
    · rw [List.dropWhile_cons_of_neg ha]

theorem pyStrip_idem (l : List Char) : pyStrip (pyStrip l) = pyStrip l := by
  unfold pyStrip
  have step1 :
      ((l.dropWhile isPyWhitespace).reverse.dropWhile
          isPyWhitespace).reverse.dropWhile isPyWhitespace =
        ((l.dropWhile isPyWhitespace).reverse.dropWhile isPyWhitespace).reverse := by
    apply dropWhile_eq_self_of_head?
    intro c hc
    rw [List.head?_reverse] at hc
    by_cases hue : (l.dropWhile isPyWhitespace).reverse.dropWhile isPyWhitespace = []
    · rw [hue] at hc
      simp at hc
    · rw [getLast?_dropWhile_of_ne_nil hue, List.getLast?_reverse] at hc
      exact head?_dropWhile_false hc
  rw [step1, List.reverse_reverse, dropWhile_dropWhile]

/-! ### Characterization of validator success -/

theorem validate_ok_spec {s k : List Char} (h : _validate_api_key s = .ok k) :
    k = pyStrip s ∧ pyStrip s ≠ [] ∧ hasCtrl s = false ∧
      quoteWrapped (pyStrip s) = false ∧ listStartsWith skAnt (pyStrip s) = true := by
  unfold _validate_api_key at h
  split_ifs at h with h1 h2 h3 h4
  all_goals cases h
  exact ⟨rfl, fun he => h1 (Or.inr he), by simpa using h2, by simpa using h3,
    by simpa using h4⟩

/-- The invariant a validated, normalized key satisfies: non-empty, free of
the rejected control characters, already stripped, not quote-wrapped, and
of the expected form. -/
def goodKey (k : List Char) : Prop :=
  k ≠ [] ∧ hasCtrl k = false ∧ pyStrip k = k ∧ quoteWrapped k = false ∧
    listStartsWith skAnt k = true

theorem goodKey_of_validate_ok {s k : List Char} (h : _validate_api_key s = .ok k) :
    goodKey k := by
  obtain ⟨hk, h1, h2, h3, h4⟩ := validate_ok_spec h
  subst hk
  exact ⟨h1, hasCtrl_pyStrip h2, pyStrip_idem s, h3, h4⟩

theorem validate_ok_of_goodKey {k : List Char} (h : goodKey k) :
    _validate_api_key k = .ok k := by
  obtain ⟨h1, h2, h3, h4, h5⟩ := h
  simp [_validate_api_key, h3, h1, h2, h4, h5]

/-! ### Claims -/

/-- C1, counterexample: the claim asserts an explicit api_key argument always
wins with no store/environment lookup, even for the empty string.  With the
explicit argument being the empty string and ANTHROPIC_API_KEY set to a valid
key, the lookup is in fact performed and construction succeeds with the
environment value, so the explicit argument did not win. -/
theorem C1_explicit_empty_counterexample :
    (resolveRaw (some []) unimportableStore ⟨some ("sk-ant-env-key".data)⟩).2 = true ∧
      AnthropicProvider.init (some []) unimportableStore
          ⟨some ("sk-ant-env-key".data)⟩ [] =
        .ok ⟨"sk-ant-env-key".data, []⟩ :=
  ⟨rfl, rfl⟩

/-- C1 (amended): for every store state and environment state, a NON-EMPTY
explicit api_key argument wins: the resolved raw key is exactly the explicit
argument and the store/environment lookup is not performed; an empty-string
explicit argument is falsy and falls through to the lookup. -/
theorem C1_explicit_nonempty_key_wins (store : CredentialStore) (env : Env)
    (k : List Char) (h : k ≠ []) :
    resolveRaw (some k) store env = (some k, false) := by
  simp [resolveRaw, pyTruthy, h]

/-- Witness for C1 (amended) at a concrete non-empty key with both the store
and the environment populated. -/
theorem C1_explicit_nonempty_key_wins_witness :
    resolveRaw (some ("sk-ant-x".data)) availableEmptyStore
        ⟨some ("sk-ant-env".data)⟩ =
      (some ("sk-ant-x".data), false) :=
  C1_explicit_nonempty_key_wins availableEmptyStore ⟨some ("sk-ant-env".data)⟩ _
    (by decide)

/-- C2, counterexample: the claim asserts that when the store yields no value
(including available-but-get-returns-none) the resolver falls back to the
environment.  With a store that reports the credential available but whose
get yields no value, and ANTHROPIC_API_KEY set, the resolver returns no value
rather than the environment value. -/
theorem C2_available_none_counterexample :
    _get_api_key_from_credential_store availableEmptyStore
        ⟨some ("sk-ant-env".data)⟩ = none ∧
      _get_api_key_from_credential_store availableEmptyStore
          ⟨some ("sk-ant-env".data)⟩ ≠ some ("sk-ant-env".data) :=
  ⟨rfl, by simp [_get_api_key_from_credential_store, availableEmptyStore]⟩

/-- C2 (amended): for an importable store, the environment fallback happens
exactly when the store reports the credential NOT available under the
"anthropic" identifier; when it reports it available, the resolver returns
the store's get result as-is (even when that is no value), with no
environment lookup. -/
theorem C2_store_fallback (store : CredentialStore) (env : Env)
    (h : store.importable = true) :
    (store.is_available anthropicId = false →
      _get_api_key_from_credential_store store env = env.anthropic_api_key) ∧
    (store.is_available anthropicId = true →
      _get_api_key_from_credential_store store env = store.get anthropicId) := by
  constructor <;> intro ha <;> simp [_get_api_key_from_credential_store, h, ha]

/-- Witness for C2 (amended) at a concrete importable store. -/
theorem C2_store_fallback_witness :
    (availableEmptyStore.is_available anthropicId = false →
      _get_api_key_from_credential_store availableEmptyStore ⟨none⟩ =
        (⟨none⟩ : Env).anthropic_api_key) ∧
    (availableEmptyStore.is_available anthropicId = true →
      _get_api_key_from_credential_store availableEmptyStore ⟨none⟩ =
        availableEmptyStore.get anthropicId) :=
  C2_store_fallback availableEmptyStore ⟨none⟩ rfl

/-- C3: every string that is non-empty after trimming, free of the rejected
control characters, whose trimmed form is not quote-wrapped and starts with
the expected literal, validates successfully to exactly its trimmed form. -/
theorem C3_valid_key_accepted (s : List Char)
    (h1 : pyStrip s ≠ []) (h2 : hasCtrl s = false)
    (h3 : quoteWrapped (pyStrip s) = false)
    (h4 : listStartsWith skAnt (pyStrip s) = true) :
    _validate_api_key s = .ok (pyStrip s) := by
  have hne : ¬(s = [] ∨ pyStrip s = []) := by
    rintro (rfl | he)
    · exact h1 rfl
    · exact h1 he
  simp [_validate_api_key, hne, h2, h3, h4]

/-- Witness for C3 at a concrete key with surrounding whitespace. -/
theorem C3_valid_key_accepted_witness :
    _validate_api_key ("  sk-ant-abc ".data) = .ok (pyStrip ("  sk-ant-abc ".data)) :=
  C3_valid_key_accepted _ (by decide) (by decide) (by decide) (by decide)

/-- C4: when neither the explicit argument nor the store/environment lookup
yields a truthy value, construction fails with MissingCredential and never
with a validator error. -/
theorem C4_missing_credential (api_key : Option (List Char)) (store : CredentialStore)
    (env : Env) (m : List Char)
    (h1 : pyTruthy api_key = false)
    (h2 : pyTruthy (_get_api_key_from_credential_store store env) = false) :
    AnthropicProvider.init api_key store env m = .error .MissingCredential ∧
      ∀ e : ValidationError,
        AnthropicProvider.init api_key store env m ≠ .error (.KeyInvalid e) := by
  have hr : (resolveRaw api_key store env).1 =
      _get_api_key_from_credential_store store env := by
    simp [resolveRaw, h1]
  have hmain : AnthropicProvider.init api_key store env m =
      .error .MissingCredential := by
    unfold AnthropicProvider.init
    rw [hr]
    cases hg : _get_api_key_from_credential_store store env with
    | none => rfl
    | some s =>
      rw [hg] at h2
      simp only [pyTruthy, decide_eq_false_iff_not, not_not] at h2
      simp [h2]
  refine ⟨hmain, fun e he => ?_⟩
  rw [hmain] at he
  simp at he

/-- Witness for C4 with no explicit key, an unimportable store and an unset
environment variable. -/
theorem C4_missing_credential_witness :
    AnthropicProvider.init none unimportableStore ⟨none⟩ [] =
        .error .MissingCredential ∧
      ∀ e : ValidationError,
        AnthropicProvider.init none unimportableStore ⟨none⟩ [] ≠
          .error (.KeyInvalid e) :=
  C4_missing_credential none unimportableStore ⟨none⟩ [] rfl rfl

theorem mem_dropWhile_of_neg {p : Char → Bool} {x : Char} {l : List Char}
    (hx : x ∈ l) (hpx : p x = false) : x ∈ l.dropWhile p := by
  induction l with
  | nil => cases hx
  | cons a t ih =>
    by_cases ha : p a
    · rw [List.dropWhile_cons_of_pos ha]
      cases hx with
      | head => rw [hpx] at ha; cases ha
      | tail _ h => exact ih h
    · rw [List.dropWhile_cons_of_neg ha]
      exact hx

theorem pyStrip_ne_nil_of_mem {x : Char} {l : List Char} (hx : x ∈ l)
    (hpx : isPyWhitespace x = false) : pyStrip l ≠ [] := by
  have h1 : x ∈ pyStrip l := by
    unfold pyStrip
    rw [List.mem_reverse]
    apply mem_dropWhile_of_neg _ hpx
    rw [List.mem_reverse]
    exact mem_dropWhile_of_neg hx hpx
  intro he
  rw [he] at h1
  cases h1

/-- C5: every string that is not whitespace-only (it has at least one
non-whitespace character) and contains one of the rejected control
characters anywhere in the raw, untrimmed string fails with the
control-characters reason. -/
theorem C5_control_characters (s : List Char) (c : Char)
    (hc : c ∈ s) (hcw : isPyWhitespace c = false)
    (h2 : hasCtrl s = true) :
    _validate_api_key s = .error .ControlCharacters := by
  have h1 : pyStrip s ≠ [] := pyStrip_ne_nil_of_mem hc hcw
  have hne : ¬(s = [] ∨ pyStrip s = []) := by
    rintro (rfl | he)
    · exact h1 rfl
    · exact h1 he
  simp [_validate_api_key, hne, h2]

/-- Witness for C5 exercising the spec's example: a well-formed key with a
trailing newline fails with ControlCharacters, not by being trimmed. -/
theorem C5_control_characters_witness :
    _validate_api_key ("sk-ant-abc\n".data) = .error .ControlCharacters :=
  C5_control_characters _ 's' (by decide) (by decide) (by decide)

/-- C6: every successfully constructed provider, from any combination of
explicit argument, store state and environment state, stores a key that is
non-empty, control-character free, already stripped, unquoted, and of the
expected form. -/
theorem C6_stored_key_invariant (api_key : Option (List Char)) (store : CredentialStore)
    (env : Env) (m : List Char) (p : AnthropicProvider)
    (h : AnthropicProvider.init api_key store env m = .ok p) :
    goodKey p.api_key := by
  unfold AnthropicProvider.init at h
  split at h
  · cases h
  · rename_i s heq
    by_cases hs : s = []
    · rw [if_pos hs] at h
      cases h
    · rw [if_neg hs] at h
      cases hv : _validate_api_key s with
      | error e =>
        rw [hv] at h
        cases h
      | ok k =>
        rw [hv] at h
        cases h
        exact goodKey_of_validate_ok hv

/-- Witness for C6: a concrete successful construction from an explicit key. -/
theorem C6_stored_key_invariant_witness :
    goodKey ((⟨"sk-ant-abc".data, []⟩ : AnthropicProvider).api_key) :=
  C6_stored_key_invariant (some ("sk-ant-abc".data)) unimportableStore ⟨none⟩ []
    ⟨"sk-ant-abc".data, []⟩ rfl

/-- C7: the validator is idempotent: whenever it succeeds with output k,
running it again on k succeeds with the same output. -/
theorem C7_validator_idempotent (s k : List Char)
    (h : _validate_api_key s = .ok k) :
    _validate_api_key k = .ok k :=
  validate_ok_of_goodKey (goodKey_of_validate_ok h)

/-- Witness for C7 at a concrete key that needed trimming. -/
theorem C7_validator_idempotent_witness :
    _validate_api_key ("sk-ant-abc".data) = .ok ("sk-ant-abc".data) :=
  C7_validator_idempotent (" sk-ant-abc ".data) ("sk-ant-abc".data) rfl

/-- C8: every string that is empty or whitespace-only, including
whitespace-only strings built from control characters, fails with the
empty-or-whitespace reason and not with the control-characters reason: the
first check takes precedence. -/
theorem C8_empty_whitespace_precedence (s : List Char)
    (h : pyStrip s = []) :
    _validate_api_key s = .error .EmptyOrWhitespace ∧
      _validate_api_key s ≠ .error .ControlCharacters := by
  have he : _validate_api_key s = .error .EmptyOrWhitespace := by
    simp [_validate_api_key, h]
  refine ⟨he, ?_⟩
  rw [he]
  simp

/-- Witness for C8 at the whitespace-only string of a newline and a tab,
which does contain control characters. -/
theorem C8_empty_whitespace_precedence_witness :
    _validate_api_key ("\n\t".data) = .error .EmptyOrWhitespace ∧
      _validate_api_key ("\n\t".data) ≠ .error .ControlCharacters :=
  C8_empty_whitespace_precedence _ (by decide)

/-- C9: when no explicit key is given and the store collaborator cannot be
imported, the resolver falls back to the ANTHROPIC_API_KEY environment
variable and returns its value, or its absence when unset. -/
theorem C9_unimportable_store_fallback (store : CredentialStore) (env : Env)
    (h : store.importable = false) :
    _get_api_key_from_credential_store store env = env.anthropic_api_key ∧
      resolveRaw none store env = (env.anthropic_api_key, true) := by
  have h1 : _get_api_key_from_credential_store store env = env.anthropic_api_key := by
    simp [_get_api_key_from_credential_store, h]
  exact ⟨h1, by simp [resolveRaw, pyTruthy, h1]⟩

/-- Witness for C9 at a concrete unimportable store with the environment
variable set. -/
theorem C9_unimportable_store_fallback_witness :
    _get_api_key_from_credential_store unimportableStore
        ⟨some ("sk-ant-env".data)⟩ =
      (⟨some ("sk-ant-env".data)⟩ : Env).anthropic_api_key ∧
      resolveRaw none unimportableStore ⟨some ("sk-ant-env".data)⟩ =
        ((⟨some ("sk-ant-env".data)⟩ : Env).anthropic_api_key, true) :=
  C9_unimportable_store_fallback unimportableStore ⟨some ("sk-ant-env".data)⟩ rfl

/-- C10: with no explicit key, a store that yields nothing (unimportable or
reporting the credential unavailable) and ANTHROPIC_API_KEY set to the empty
string, construction fails with MissingCredential and not with the
validator's empty-or-whitespace error: an empty resolved value counts as
absence and never reaches the validator. -/
theorem C10_empty_env_missing_credential (store : CredentialStore) (env : Env)
    (m : List Char)
    (h1 : env.anthropic_api_key = some [])
    (h2 : store.importable = false ∨ store.is_available anthropicId = false) :
    AnthropicProvider.init none store env m = .error .MissingCredential ∧
      AnthropicProvider.init none store env m ≠
        .error (.KeyInvalid .EmptyOrWhitespace) := by
  have hg : _get_api_key_from_credential_store store env = some [] := by
    cases h2 with
    | inl h => simp [_get_api_key_from_credential_store, h, h1]
    | inr h =>
      by_cases hi : store.importable
      · simp [_get_api_key_from_credential_store, hi, h, h1]
      · simp [_get_api_key_from_credential_store, hi, h1]
  have hr : (resolveRaw none store env).1 = some [] := by
    simp [resolveRaw, pyTruthy, hg]
  have hmain : AnthropicProvider.init none store env m =
      .error .MissingCredential := by
    unfold AnthropicProvider.init
    rw [hr]
    rfl
  refine ⟨hmain, ?_⟩
  rw [hmain]
  simp

/-- Witness for C10 at a concrete unimportable store and an environment
variable holding the empty string. -/
theorem C10_empty_env_missing_credential_witness :
    AnthropicProvider.init none unimportableStore ⟨some []⟩ [] =
        .error .MissingCredential ∧
      AnthropicProvider.init none unimportableStore ⟨some []⟩ [] ≠
        .error (.KeyInvalid .EmptyOrWhitespace) :=
  C10_empty_env_missing_credential unimportableStore ⟨some []⟩ [] rfl (Or.inl rfl)
